import Mathlib

/-!
Shallow embedding of `main.py` (DownUltrabot): a Telegram downloader bot.

The embedding models the per-user conversational state machine and the
delivery-path selection logic.  The mutable global `DATA` dictionary becomes
an explicit `Store` value threaded through the handlers; every outbound
chat-platform call (`bot.send_message`, `bot.edit_message_text`, ...) becomes
a constructor of `Out` collected in a list; every external collaborator
invocation (yt-dlp fetch, S3 upload, transfer.sh upload) is recorded as a
`Collab` and its outcome is supplied by oracle functions in `Env`
(the source treats those collaborators as opaque: network calls).

Python conventions carried over:
  - `DATA` dicts with string keys become insertion-ordered association lists
    (Python dicts preserve insertion order; `setdefault` appends at the end).
  - Python truthiness of strings / `None` is modelled explicitly:
    `(o.getD "") = ""` is `not x` for `x : Option String`.
  - `str(uid)` is `toString uid` on `Int`.

Note on the source text: the file as shipped has `app = Flask(name)`,
`if name == "main"`, and one statement (`bot.answer_callback_query` at line
343) dedented to column 0 — artifacts of the dump stripping underscores and
mangling indentation (`__name__`, `"__main__"`; the orphaned statement sits
between `if not link:` and an indented `return`, so it is the body of that
`if`).  The embedding reads those lines as the evident intent.
-/

/-- One key/value lookup in a Python dict modelled as an association list:
`d.get(k)` returning `None` when absent. -/
def alistGet {α : Type} (l : List (String × α)) (k : String) : Option α :=
  match l with
  | [] => none
  | (k1, v) :: rest => if k1 = k then some v else alistGet rest k

/-- `d[k] = v`: update in place if the key is present, else append at the end
(Python dicts keep insertion order). -/
def alistSet {α : Type} (l : List (String × α)) (k : String) (v : α) : List (String × α) :=
  match l with
  | [] => [(k, v)]
  | (k1, v1) :: rest => if k1 = k then (k1, v) :: rest else (k1, v1) :: alistSet rest k v

/-- `d.setdefault(k, v)`: insert `(k, v)` at the end only when `k` is absent. -/
def alistSetdefault {α : Type} (l : List (String × α)) (k : String) (v : α) : List (String × α) :=
  if (alistGet l k).isSome then l else l ++ [(k, v)]

/-- A registered user's profile record: `{"first_name": ..., "id": uid}`
(main.py lines 271, 301). -/
structure UserRec where
  first_name : String
  id : Int
deriving DecidableEq

/-- The persisted JSON store `DATA` (main.py lines 105-112):
`{"users": {}, "banned": [], "langs": {}, "current_links": {}}`. -/
structure Store where
  users : List (String × UserRec)
  banned : List String
  langs : List (String × String)
  current_links : List (String × String)
deriving DecidableEq

/-- The i18n string table `STRINGS` (main.py lines 65-90).  Literal braces of
the Python format strings are written with hex escapes. -/
def STRINGS : List (String × String) :=
  [ ("start_uz", "👋 Assalomu alaykum!\nLink yuboring (YouTube/Instagram/TikTok...).\nTilni tanlang ↙️"),
    ("start_ru", "👋 Привет!\nОтправьте ссылку (YouTube/Instagram/TikTok...).\nВыберите язык ↙️"),
    ("start_en", "👋 Hi!\nSend a link (YouTube/Instagram/TikTok...).\nChoose language ↙️"),
    ("choose_format_uz", "Link qabul qilindi ✅\nQaysi formatni xohlaysiz?"),
    ("choose_format_ru", "Ссылка принята ✅\nКакой формат предпочитаете?"),
    ("choose_format_en", "Link received ✅\nWhich format do you want?"),
    ("downloading_uz", "⏳ Yuklanmoqda — biroz kuting..."),
    ("downloading_ru", "⏳ Загружаю — подождите..."),
    ("downloading_en", "⏳ Downloading — please wait..."),
    ("no_link_uz", "Iltimos to‘liq link yuboring (https://...)."),
    ("no_link_ru", "Пожалуйста, отправьте ссылку (https://...)."),
    ("no_link_en", "Please send a full link (https://...)."),
    ("error_uz", "❌ Xatolik: \x7b\x7d"),
    ("error_ru", "❌ Ошибка: \x7b\x7d"),
    ("error_en", "❌ Error: \x7b\x7d"),
    ("not_admin_uz", "Siz admin emassiz."),
    ("not_admin_ru", "Вы не админ."),
    ("not_admin_en", "You are not an admin.") ]

/-- `str.startswith(pre)`, spelled out over character lists (the library's
`String.startsWith` walks UTF-8 byte positions and does not reduce inside the
kernel; this is the same predicate). -/
def strStartsWith (s pre : String) : Bool :=
  pre.toList.isPrefixOf s.toList

/-- Python `str.strip()`: drop leading and trailing whitespace. -/
def pyStrip (s : String) : String :=
  String.mk (((s.toList.dropWhile Char.isWhitespace).reverse.dropWhile Char.isWhitespace).reverse)

/-- `str.format` substitution: replace each `\x7b\x7d` placeholder pair by the
argument. -/
def formatArg : List Char → List Char → List Char
  | [], _ => []
  | '\x7b' :: '\x7d' :: rest, arg => arg ++ formatArg rest arg
  | c :: rest, arg => c :: formatArg rest arg

/-- `tr(key, lang, *args)` (main.py lines 92-100): look up `key_lang`, fall
back to `key_uz`, then to `"..."`; when an argument is supplied substitute it
for the `\x7b\x7d` placeholder (each format string in `STRINGS` has at most
one placeholder, so `str.format` and replace-all coincide). -/
def tr (key lang : String) (args : List String) : String :=
  let k := key ++ "_" ++ lang
  let txt := ((alistGet STRINGS k).orElse (fun _ => alistGet STRINGS (key ++ "_uz"))).getD "..."
  match args with
  | [] => txt
  | a :: _ => String.mk (formatArg txt.toList a.toList)

/-- `looks_like_url` (main.py lines 158-159). -/
def looks_like_url (text : String) : Bool :=
  strStartsWith text "http://" || strStartsWith text "https://"

/-- Characters kept verbatim by `safe_filename` besides alphanumerics:
`" ._-()"`.  Python's `c.isalnum()` is Unicode-wide; `Char.isAlphanum` is its
ASCII restriction — the divergence does not affect any property proved here,
which holds per whichever alphanumeric predicate is plugged in. -/
def safe_keep (c : Char) : Bool :=
  c.isAlphanum || " ._-()".toList.contains c

/-- `safe_filename` (main.py lines 161-162): map each character, keeping
alphanumerics and `" ._-()"`, replacing everything else with `'_'`, then
truncate to 200 characters (`[:200]`). -/
def safe_filename (s : String) : String :=
  String.mk (((s.toList.map (fun c => if safe_keep c then c else '_')).take 200))

/-- `os.path.basename`: the part of the path after the last `'/'`. -/
def pyBasename (p : String) : String :=
  String.mk ((p.toList.reverse.takeWhile (fun c => c ≠ '/')).reverse)

/-- Drop characters up to and including the first occurrence of `sep`:
models `s.split(sep, 1)[1]` (and `s.partition(sep)[2]`) for a
single-character separator, returning `[]` when `sep` does not occur. -/
def dropThroughFirst (sep : Char) : List Char → List Char
  | [] => []
  | c :: rest => if c = sep then rest else dropThroughFirst sep rest

/-- Accumulating worker for `pySplit`: `acc` holds the current word,
reversed. -/
def pySplitAux : List Char → List Char → List String
  | [], acc => if acc = [] then [] else [String.mk acc.reverse]
  | c :: rest, acc =>
      if Char.isWhitespace c then
        if acc = [] then pySplitAux rest []
        else String.mk acc.reverse :: pySplitAux rest []
      else pySplitAux rest (c :: acc)

/-- `text.split()`: split on whitespace runs, dropping empty pieces. -/
def pySplit (s : String) : List String :=
  pySplitAux s.toList []

/-- `int(s)` on a decimal string (the only shape the store's keys take,
being produced by `str(uid)`): optional sign, then digits; `None` models the
`ValueError` branch. -/
def parseDigitsAux : List Char → Nat → Option Nat
  | [], acc => some acc
  | c :: rest, acc =>
      if '0' ≤ c && c ≤ '9' then parseDigitsAux rest (acc * 10 + (c.toNat - '0'.toNat))
      else none

/-- `int(s)`, see `parseDigitsAux`. -/
def pyInt? (s : String) : Option Int :=
  match (pyStrip s).toList with
  | '-' :: rest => if rest = [] then none else (parseDigitsAux rest 0).map (fun n => -(n : Int))
  | '+' :: rest => if rest = [] then none else (parseDigitsAux rest 0).map (fun n => (n : Int))
  | [] => none
  | l => (parseDigitsAux l 0).map (fun n => (n : Int))

/-- The inline keyboards (main.py lines 237-263), abstracted to which of the
three markups is attached (`lang_keyboard`, `format_keyboard(lang)`,
`admin_keyboard`); the button payloads are fixed in the source. -/
inductive Keyboard where
  | lang : Keyboard
  | format (lang : String) : Keyboard
  | admin : Keyboard
deriving DecidableEq

/-- An outbound chat-platform call made by a handler.  `send_video` is part
of the platform surface (telebot offers it) but, as the theorems show, the
source never emits it. -/
inductive Out where
  | send_message (uid : Int) (text : String) (markup : Option Keyboard) : Out
  | answer_callback_query (callId : Nat) (text : String) : Out
  | edit_message_text (text : String) (uid : Int) (msgId : Nat) : Out
  | delete_message (uid : Int) (msgId : Nat) : Out
  | send_audio (uid : Int) (title : String) : Out
  | send_document (uid : Int) (caption : String) : Out
  | send_video (uid : Int) (caption : String) : Out
deriving DecidableEq

/-- An external-collaborator invocation (media fetch, S3/R2 upload,
transfer.sh upload). -/
inductive Collab where
  | fetch (link mode : String) : Collab
  | s3_upload (path key : String) : Collab
  | transfersh (path : String) : Collab
deriving DecidableEq

/-- The metadata dict returned by the media-fetch collaborator, restricted to
the keys the handlers read: `info.get("id")`, `info.get("ext", "mp4")`,
`info.get("title")`. -/
structure Info where
  id : String
  ext : Option String
  title : Option String
deriving DecidableEq

/-- Configuration and collaborator oracles.  `fetch` models
`download_with_yt_dlp` (an opaque network/library call from the handlers'
point of view): it raises, or returns an optional file path plus metadata.
`s3_upload` models `upload_file_to_s3` (url or exception); `transfersh_upload`
models `upload_to_transfersh` (catches internally, returns `None` on
failure). -/
structure Env where
  MAX_TELEGRAM_BYTES : Nat
  ADMIN_IDS : List Int
  s3_configured : Bool
  fetch : String → String → Except String (Option String × Info)
  fileExists : String → Bool
  fileSize : String → Nat
  s3_upload : String → String → Except String String
  transfersh_upload : String → Option String

/-- `handle_start` (main.py lines 268-275): register the user if absent and
send the localized start prompt with the language keyboard.  No banned check
is performed here. -/
def handle_start (st : Store) (uid : Int) (first_name : String) : Store × List Out :=
  let st1 := { st with users := alistSetdefault st.users (toString uid) ⟨first_name, uid⟩ }
  let lang := (alistGet st1.langs (toString uid)).getD "uz"
  (st1, [Out.send_message uid (tr "start" lang []) (some Keyboard.lang)])

/-- `callback_lang` (main.py lines 277-284): `code = call.data.split("_",1)[1]`
is stored unconditionally — no validation against the supported locales. -/
def callback_lang (st : Store) (uid : Int) (callId : Nat) (data : String) : Store × List Out :=
  let code := String.mk (dropThroughFirst '_' data.toList)
  let st1 := { st with langs := alistSet st.langs (toString uid) code }
  (st1, [ Out.answer_callback_query callId "OK",
          Out.send_message uid (tr "start" code []) (some (Keyboard.format code)) ])

/-- `main_text` (main.py lines 286-306): the catch-all text handler.  Banned
users are short-circuited first; then the `/admin` trigger; then the URL
test on the stripped text; otherwise the invalid-link prompt. -/
def main_text (env : Env) (st : Store) (uid : Int) (first_name : String)
    (text0 : Option String) : Store × List Out :=
  if toString uid ∈ st.banned then (st, [])
  else
    let text := pyStrip (text0.getD "")
    let lang := (alistGet st.langs (toString uid)).getD "uz"
    if text = "/admin" then
      if uid ∉ env.ADMIN_IDS then
        (st, [Out.send_message uid (tr "not_admin" lang []) none])
      else
        (st, [Out.send_message uid "Admin panel:" (some Keyboard.admin)])
    else if looks_like_url text then
      let st1 := { st with users := alistSetdefault st.users (toString uid) ⟨first_name, uid⟩ }
      let st2 := { st1 with current_links := alistSet st1.current_links (toString uid) text }
      (st2, [Out.send_message uid (tr "choose_format" lang []) (some (Keyboard.format lang))])
    else
      (st, [Out.send_message uid (tr "no_link" lang []) none])

/-- The large-file S3/R2 attempt (main.py lines 365-373): only when
`s3_client and S3_BUCKET` is truthy, call `upload_file_to_s3` with key
`f"{info.get('id')}.{info.get('ext','mp4')}"`; an exception is caught and
leaves `link_to_send = None`. -/
def s3_stage (env : Env) (filepath : String) (info : Info) : Option String × List Collab :=
  if env.s3_configured then
    let key := info.id ++ "." ++ (info.ext.getD "mp4")
    match env.s3_upload filepath key with
    | Except.ok url => (some url, [Collab.s3_upload filepath key])
    | Except.error _ => (none, [Collab.s3_upload filepath key])
  else (none, [])

/-- The transfer.sh fallback (main.py lines 374-375): attempted exactly when
the S3 stage left `link_to_send` falsy (`None` or empty). -/
def fallback_stage (env : Env) (filepath : String) (s3res : Option String × List Collab) :
    Option String × List Collab :=
  if (s3res.1.getD "") = "" then
    (env.transfersh_upload filepath, s3res.2 ++ [Collab.transfersh filepath])
  else s3res

/-- The fetch-and-deliver sequence of the format branch of `callback_all`
(main.py lines 345-385), after the "downloading" edit and the recording of
the fetch invocation: outcome of `download_with_yt_dlp`, the
`size <= MAX_TELEGRAM_BYTES` split, and on the large path the
S3-then-transfer.sh cascade.  Returns the outbound calls after the initial
edit and the collaborator invocations after the fetch. -/
def fetch_and_deliver (env : Env) (uid : Int) (msgId : Nat) (lang link mode : String) :
    List Out × List Collab :=
  match env.fetch link mode with
  | Except.error ex =>
      ([Out.edit_message_text (tr "error" lang [ex]) uid msgId], [])
  | Except.ok (fp0, info) =>
      let filepath := fp0.getD ""
      if filepath = "" ∨ env.fileExists filepath = false then
        ([Out.edit_message_text (tr "error" lang ["Yuklab bo\x27lmadi"]) uid msgId], [])
      else
        let size := env.fileSize filepath
        let title := if (info.title.getD "") = "" then pyBasename filepath else info.title.getD ""
        let _fname := safe_filename title
        if size ≤ env.MAX_TELEGRAM_BYTES then
          ((if mode = "audio" then [Out.send_audio uid title] else [Out.send_document uid title])
             ++ [Out.delete_message uid msgId], [])
        else
          let bigEdit := Out.edit_message_text "📤 Fayl juda katta — yuklash amalga oshirilmoqda..." uid msgId
          let final := fallback_stage env filepath (s3_stage env filepath info)
          let finalMsg :=
            if (final.1.getD "") = "" then
              Out.send_message uid (tr "error" lang ["Upload failed"]) none
            else
              Out.send_message uid ("🔗 Yuklab olish havolasi:\n" ++ final.1.getD "") none
          ([bigEdit, finalMsg, Out.delete_message uid msgId], final.2)

/-- The `format_mp4`/`format_mp3` branch of `callback_all`
(main.py lines 339-386): with no non-empty pending link, answer
"Avval link yuboring." and stop; otherwise edit to "downloading", invoke the
fetch, and deliver. -/
def format_branch (env : Env) (st : Store) (uid : Int) (callId msgId : Nat)
    (data lang : String) : Store × List Out × List Collab :=
  let link0 := alistGet st.current_links (toString uid)
  if (link0.getD "") = "" then
    (st, [Out.answer_callback_query callId "Avval link yuboring."], [])
  else
    let link := link0.getD ""
    let mode := if data = "format_mp3" then "audio" else "video"
    let r := fetch_and_deliver env uid msgId lang link mode
    (st, Out.edit_message_text (tr "downloading" lang []) uid msgId :: r.1,
     Collab.fetch link mode :: r.2)

/-- The admin-users listing text (main.py line 324). -/
def adm_users_text (st : Store) : String :=
  let lines := (st.users.map (fun kv => toString kv.2.id ++ " — " ++ kv.2.first_name)).take 200
  let t := String.intercalate "\n" lines
  if t = "" then "Hech kim yo\x27q" else t

/-- `callback_all` (main.py lines 308-395): the catch-all callback handler.
No banned check is performed.  The trailing `lang_` branch is dead in the
running program (telebot dispatches those to `callback_lang`, registered
first) but is kept as in the source. -/
def callback_all (env : Env) (st : Store) (uid : Int) (callId msgId : Nat)
    (data : String) : Store × List Out × List Collab :=
  let lang := (alistGet st.langs (toString uid)).getD "uz"
  if strStartsWith data "adm_" then
    if uid ∉ env.ADMIN_IDS then
      (st, [Out.answer_callback_query callId (tr "not_admin" lang [])], [])
    else if data = "adm_stats" then
      (st, [Out.send_message uid
              ("Foydalanuvchilar: " ++ toString st.users.length
                ++ "\nBanned: " ++ toString st.banned.length) none], [])
    else if data = "adm_users" then
      (st, [Out.send_message uid (adm_users_text st) none], [])
    else if data = "adm_broadcast" then
      (st, [Out.send_message uid "Mass-xabar yuborish uchun buyruq: /broadcast Your message" none], [])
    else if data = "adm_ban" then
      (st, [Out.send_message uid "Ban qo‘yish: /ban <user_id> va /unban <user_id>" none], [])
    else (st, [], [])
  else if data = "change_lang" then
    (st, [ Out.answer_callback_query callId "Tilni tanlang",
           Out.send_message uid "Tilni tanlang:" (some Keyboard.lang) ], [])
  else if data = "format_mp4" || data = "format_mp3" then
    format_branch env st uid callId msgId data lang
  else if strStartsWith data "lang_" then
    let code := String.mk (dropThroughFirst '_' data.toList)
    ({ st with langs := alistSet st.langs (toString uid) code },
     [ Out.answer_callback_query callId "OK",
       Out.send_message uid (tr "start" code []) (some (Keyboard.format code)) ], [])
  else (st, [], [])

/-- The broadcast loop of `cmd_broadcast` (main.py lines 407-413): for each
key of `DATA["users"]`, `int(uid_str)` then `bot.send_message` inside a
per-recipient `try/except` that swallows failure (`sendOk` is the oracle for
whether the platform send succeeds).  Returns the success count and the send
attempts actually made. -/
def broadcast_loop (sendOk : Int → Bool) (text : String) : List String → Nat × List Out
  | [] => (0, [])
  | u :: rest =>
      match pyInt? u with
      | none => broadcast_loop sendOk text rest
      | some n =>
          let r := broadcast_loop sendOk text rest
          ((if sendOk n then 1 else 0) + r.1, Out.send_message n text none :: r.2)

/-- `cmd_broadcast` (main.py lines 400-414): admin gate, then
`m.text.partition(" ")[2].strip()` as the body, then the loop, then the
`"Sent to {cnt} users."` report. -/
def cmd_broadcast (env : Env) (sendOk : Int → Bool) (st : Store) (fromId chatId : Int)
    (text : String) : Store × List Out :=
  if fromId ∉ env.ADMIN_IDS then
    (st, [Out.send_message chatId
            (tr "not_admin" ((alistGet st.langs (toString fromId)).getD "uz") []) none])
  else
    let body := pyStrip (String.mk (dropThroughFirst ' ' text.toList))
    if body = "" then
      (st, [Out.send_message chatId "Usage: /broadcast Your message" none])
    else
      let r := broadcast_loop sendOk body (st.users.map Prod.fst)
      (st, r.2 ++ [Out.send_message chatId ("Sent to " ++ toString r.1 ++ " users.") none])

/-- `cmd_ban` (main.py lines 416-427): admin gate; `m.text.split()`; with a
second token `uid`, append it to `banned` only when not already present. -/
def cmd_ban (env : Env) (st : Store) (fromId chatId : Int) (text : String) : Store × List Out :=
  if fromId ∉ env.ADMIN_IDS then
    (st, [Out.send_message chatId
            (tr "not_admin" ((alistGet st.langs (toString fromId)).getD "uz") []) none])
  else
    match pySplit text with
    | _ :: u :: _ =>
        let uid := pyStrip u
        let st1 := if uid ∈ st.banned then st else { st with banned := st.banned ++ [uid] }
        (st1, [Out.send_message chatId ("User " ++ uid ++ " banned.") none])
    | _ => (st, [Out.send_message chatId "Usage: /ban <user_id>" none])

/-- `cmd_unban` (main.py lines 429-440): admin gate; with a second token
`uid`, `list.remove` it (first occurrence) only when present. -/
def cmd_unban (env : Env) (st : Store) (fromId chatId : Int) (text : String) : Store × List Out :=
  if fromId ∉ env.ADMIN_IDS then
    (st, [Out.send_message chatId
            (tr "not_admin" ((alistGet st.langs (toString fromId)).getD "uz") []) none])
  else
    match pySplit text with
    | _ :: u :: _ =>
        let uid := pyStrip u
        let st1 := if uid ∈ st.banned then { st with banned := st.banned.erase uid } else st
        (st1, [Out.send_message chatId ("User " ++ uid ++ " unbanned.") none])
    | _ => (st, [Out.send_message chatId "Usage: /unban <user_id>" none])

/-- `telebot.util.extract_command`: the `/`-stripped first token of the text,
up to a space or `@`, when the text starts with `/`. -/
def extract_command (text : String) : Option String :=
  match text.toList with
  | '/' :: rest => some (String.mk (rest.takeWhile (fun c => c ≠ ' ' && c ≠ '@')))
  | _ => none

/-- One inbound chat-platform event. -/
inductive Event where
  | message (uid : Int) (first_name : String) (text : Option String) : Event
  | callbackQ (uid : Int) (callId msgId : Nat) (data : String) : Event
deriving DecidableEq

/-- telebot's dispatch over the registered handlers, in registration order:
messages matching commands `start`/`help` go to `handle_start`; every other
message is swallowed by the catch-all `main_text` (registered at line 286,
before `/broadcast`, `/ban`, `/unban` at lines 400-440, which are therefore
unreachable through dispatch); callbacks with data starting `lang_` go to
`callback_lang` (line 277), the rest to the catch-all `callback_all`. -/
def process_event (env : Env) (st : Store) : Event → Store × List Out × List Collab
  | Event.message uid fn text =>
      match extract_command (text.getD "") with
      | some c =>
          if c = "start" || c = "help" then
            let r := handle_start st uid fn
            (r.1, r.2, [])
          else
            let r := main_text env st uid fn text
            (r.1, r.2, [])
      | none =>
          let r := main_text env st uid fn text
          (r.1, r.2, [])
  | Event.callbackQ uid cid mid data =>
      if strStartsWith data "lang_" then
        let r := callback_lang st uid cid data
        (r.1, r.2, [])
      else callback_all env st uid cid mid data

/-- The JSON values produced and consumed by `json.dump`/`json.load` for the
store (only the shapes the store uses: strings, integers, arrays, objects
with string keys in insertion order). -/
inductive Jval where
  | str (s : String) : Jval
  | int (n : Int) : Jval
  | arr (xs : List Jval) : Jval
  | obj (kvs : List (String × Jval)) : Jval

/-- Serialization of one user record, as `json.dump` lays it out. -/
def encodeUser (u : UserRec) : Jval :=
  Jval.obj [("first_name", Jval.str u.first_name), ("id", Jval.int u.id)]

/-- Serialization of a string-to-string map. -/
def encodeStrMap (m : List (String × String)) : Jval :=
  Jval.obj (m.map (fun kv => (kv.1, Jval.str kv.2)))

/-- `save_data` (main.py lines 114-119) at the JSON-value level: the tree
`json.dump` writes for `DATA`. -/
def encodeStore (st : Store) : Jval :=
  Jval.obj
    [ ("users", Jval.obj (st.users.map (fun kv => (kv.1, encodeUser kv.2)))),
      ("banned", Jval.arr (st.banned.map Jval.str)),
      ("langs", encodeStrMap st.langs),
      ("current_links", encodeStrMap st.current_links) ]

/-- Reading one user record back. -/
def decodeUser : Jval → Option UserRec
  | Jval.obj [("first_name", Jval.str fn), ("id", Jval.int i)] => some ⟨fn, i⟩
  | _ => none

/-- Reading the users map back. -/
def decodeUsers : List (String × Jval) → Option (List (String × UserRec))
  | [] => some []
  | (k, j) :: rest =>
      match decodeUser j, decodeUsers rest with
      | some u, some us => some ((k, u) :: us)
      | _, _ => none

/-- Reading a string array back. -/
def decodeStrList : List Jval → Option (List String)
  | [] => some []
  | Jval.str s :: rest =>
      match decodeStrList rest with
      | some ss => some (s :: ss)
      | none => none
  | _ => none

/-- Reading a string-to-string map back. -/
def decodeStrMap : List (String × Jval) → Option (List (String × String))
  | [] => some []
  | (k, Jval.str s) :: rest =>
      match decodeStrMap rest with
      | some m => some ((k, s) :: m)
      | none => none
  | _ => none

/-- The startup load (main.py lines 105-108) at the JSON-value level:
reconstitute the store from the tree `json.load` returns. -/
def decodeStore : Jval → Option Store
  | Jval.obj [ ("users", Jval.obj us), ("banned", Jval.arr bs),
               ("langs", Jval.obj ls), ("current_links", Jval.obj cs) ] =>
      match decodeUsers us, decodeStrList bs, decodeStrMap ls, decodeStrMap cs with
      | some u, some b, some l, some c => some ⟨u, b, l, c⟩
      | _, _, _, _ => none
  | _ => none

/-- A concrete environment for evaluating the handlers: the default 49 MiB
threshold, no admins, no S3, every collaborator failing. -/
def envTriv : Env :=
  { MAX_TELEGRAM_BYTES := 51380224
    ADMIN_IDS := []
    s3_configured := false
    fetch := fun _ _ => Except.error "network down"
    fileExists := fun _ => false
    fileSize := fun _ => 0
    s3_upload := fun _ _ => Except.error "unconfigured"
    transfersh_upload := fun _ => none }

/-- A concrete environment whose fetch yields a small (1000-byte) file
titled "Title". -/
def envSmallFile : Env :=
  { MAX_TELEGRAM_BYTES := 51380224
    ADMIN_IDS := []
    s3_configured := false
    fetch := fun _ _ => Except.ok (some "/tmp/dl/f.mp4", ⟨"vid1", some "mp4", some "Title"⟩)
    fileExists := fun _ => true
    fileSize := fun _ => 1000
    s3_upload := fun _ _ => Except.error "unconfigured"
    transfersh_upload := fun _ => none }

/-- The empty store. -/
def stPlain : Store := ⟨[], [], [], []⟩

/-- A store in which user "7" is banned. -/
def stBanned7 : Store := ⟨[], ["7"], [], []⟩

/-- A store in which user "7" has stored locale "uz". -/
def stLangUz7 : Store := ⟨[("7", ⟨"A", 7⟩)], [], [("7", "uz")], []⟩

/-- A store with three registered users, for exercising the broadcast loop. -/
def stUsers123 : Store :=
  ⟨[("1", ⟨"A", 1⟩), ("2", ⟨"B", 2⟩), ("3", ⟨"C", 3⟩)], [], [], []⟩

/-- A send oracle that fails exactly for recipient 2. -/
def sendOkNot2 : Int → Bool := fun n => n != 2

/-- `envTriv` with user 1 on the admin allow-list. -/
def envAdmin1 : Env := { envTriv with ADMIN_IDS := [1] }

/-! ### Helper lemmas -/

/-- Looking up a key just set returns the set value. -/
theorem alistGet_alistSet_self {α : Type} (l : List (String × α)) (k : String) (v : α) :
    alistGet (alistSet l k v) k = some v := by
  induction l with
  | nil => simp [alistSet, alistGet]
  | cons hd tl ih =>
      obtain ⟨k1, v1⟩ := hd
      by_cases h : k1 = k <;> simp [alistSet, alistGet, h, ih]

/-- `split("_", 1)[1]` applied to `"lang_" ++ code` recovers `code`. -/
theorem dropThroughFirst_lang (code : String) :
    String.mk (dropThroughFirst '_' ("lang_" ++ code).toList) = code := by
  obtain ⟨data⟩ := code
  have h : ("lang_" ++ String.mk data).toList = 'l' :: 'a' :: 'n' :: 'g' :: '_' :: data := rfl
  rw [h]
  simp [dropThroughFirst]

/-- Round-trip for one user record. -/
theorem decodeUser_encodeUser (u : UserRec) : decodeUser (encodeUser u) = some u := by
  cases u
  rfl

/-- Round-trip for the users map. -/
theorem decodeUsers_encode (l : List (String × UserRec)) :
    decodeUsers (l.map (fun kv => (kv.1, encodeUser kv.2))) = some l := by
  induction l with
  | nil => rfl
  | cons hd tl ih =>
      obtain ⟨k, v⟩ := hd
      simp [decodeUsers, decodeUser_encodeUser, ih]

/-- Round-trip for the banned array. -/
theorem decodeStrList_encode (l : List String) :
    decodeStrList (l.map Jval.str) = some l := by
  induction l with
  | nil => rfl
  | cons hd tl ih => simp [decodeStrList, ih]

/-- Round-trip for a string-to-string map. -/
theorem decodeStrMap_encode (l : List (String × String)) :
    decodeStrMap (l.map (fun kv => (kv.1, Jval.str kv.2))) = some l := by
  induction l with
  | nil => rfl
  | cons hd tl ih =>
      obtain ⟨k, v⟩ := hd
      simp [decodeStrMap, ih]

/-- What the broadcast loop sends and counts: an attempt for every parseable
key regardless of the oracle, and a count of exactly the successes. -/
theorem broadcast_loop_spec (sendOk : Int → Bool) (text : String) (uids : List String) :
    (broadcast_loop sendOk text uids).2
      = uids.filterMap (fun u => (pyInt? u).map (fun n => Out.send_message n text none)) ∧
    (broadcast_loop sendOk text uids).1
      = (uids.filter (fun u => ((pyInt? u).map sendOk).getD false)).length := by
  induction uids with
  | nil => exact ⟨rfl, rfl⟩
  | cons u rest ih =>
      rcases h : pyInt? u with _ | n
      · simp [broadcast_loop, h, ih.1, ih.2, List.filterMap_cons, List.filter_cons]
      · by_cases hs : sendOk n
        · simp [broadcast_loop, h, ih.1, ih.2, hs, List.filterMap_cons, List.filter_cons]
          omega
        · simp [broadcast_loop, h, ih.1, ih.2, hs, List.filterMap_cons, List.filter_cons]

/-- The S3 stage's collaborator record depends only on configuration. -/
theorem s3_stage_collabs (env : Env) (filepath : String) (info : Info) :
    (s3_stage env filepath info).2
      = (if env.s3_configured
          then [Collab.s3_upload filepath (info.id ++ "." ++ (info.ext.getD "mp4"))] else []) := by
  by_cases h : env.s3_configured
  · rcases hu : env.s3_upload filepath (info.id ++ "." ++ (info.ext.getD "mp4")) with url | e <;>
      simp [s3_stage, h, hu]
  · simp [s3_stage, h]

/-- The fallback stage appends the transfer.sh attempt exactly when the S3
stage left no link. -/
theorem fallback_stage_collabs (env : Env) (filepath : String) (s3res : Option String × List Collab) :
    (fallback_stage env filepath s3res).2
      = s3res.2 ++ (if (s3res.1.getD "") = "" then [Collab.transfersh filepath] else []) := by
  by_cases h : (s3res.1.getD "") = "" <;> simp [fallback_stage, h]

/-- Neither the S3 stage nor the fallback stage records a media fetch. -/
theorem no_fetch_in_stages (env : Env) (filepath : String) (info : Info) (l m : String) :
    Collab.fetch l m ∉ (fallback_stage env filepath (s3_stage env filepath info)).2 := by
  rw [fallback_stage_collabs, s3_stage_collabs]
  by_cases h1 : env.s3_configured <;>
    by_cases h2 : (((s3_stage env filepath info).1.getD "") = "") <;>
      simp [h1, h2]

/-- The media fetch is never re-recorded inside `fetch_and_deliver`. -/
theorem no_fetch_in_deliver (env : Env) (uid : Int) (mid : Nat) (lang link mode l m : String) :
    Collab.fetch l m ∉ (fetch_and_deliver env uid mid lang link mode).2 := by
  unfold fetch_and_deliver
  rcases hf : env.fetch link mode with ex | p
  · simp
  · obtain ⟨fp0, info⟩ := p
    dsimp only
    split
    · simp
    · split
      · simp
      · exact no_fetch_in_stages env (fp0.getD "") info l m

/-! ### Claim theorems -/

/-- Claim C10: for every input string, `safe_filename` returns a string of
length at most 200 whose every character is alphanumeric or one of
space, '.', '_', '-', '(', ')'; each input character violating that
(within the 200-character window) is replaced by '_', the others kept. -/
theorem safe_filename_clean (s : String) :
    (safe_filename s).length ≤ 200 ∧
    (∀ c ∈ (safe_filename s).toList, safe_keep c = true) ∧
    (∀ i : Nat, i < 200 →
      (safe_filename s).toList[i]?
        = (s.toList[i]?).map (fun c => if safe_keep c then c else '_')) := by
  refine ⟨?_, ?_, ?_⟩
  · show ((s.toList.map (fun c => if safe_keep c then c else '_')).take 200).length ≤ 200
    rw [List.length_take]
    omega
  · intro c hc
    have hc1 : c ∈ (s.toList.map (fun c => if safe_keep c then c else '_')).take 200 := hc
    rcases List.mem_map.mp (List.mem_of_mem_take hc1) with ⟨x, _, hx⟩
    by_cases h : safe_keep x
    · rw [← hx]
      simp [h]
    · rw [← hx]
      simp [h]
      decide
  · intro i hi
    show ((s.toList.map (fun c => if safe_keep c then c else '_')).take 200)[i]? = _
    rw [List.getElem?_take]
    simp [hi, List.getElem?_map]

/-- Claim C10 witness: at input `"a/b?c"`, position 1 (the `'/'`) comes back
as `'_'`. -/
theorem safe_filename_clean_witness :
    (safe_filename "a/b?c").toList[1]? = some '_' := by
  have h := (safe_filename_clean "a/b?c").2.2 1 (by omega)
  rw [h]
  rfl

/-- Claim C8: serializing the persisted store and reloading it reproduces an
identical store — same user records, banned set, and language map (and
pending-link map). -/
theorem store_roundtrip (st : Store) : decodeStore (encodeStore st) = some st := by
  obtain ⟨u, b, l, c⟩ := st
  simp [encodeStore, decodeStore, encodeStrMap,
        decodeUsers_encode, decodeStrList_encode, decodeStrMap_encode]

/-- Claim C6: `ban` applied twice yields the same store as applied once, and
`unban` of an identifier not in the banned set leaves the store unchanged. -/
theorem ban_unban_idempotent (env : Env) (st : Store) (a c : Int) (text : String) :
    (cmd_ban env (cmd_ban env st a c text).1 a c text).1 = (cmd_ban env st a c text).1 ∧
    ((∀ t0 u rest, pySplit text = t0 :: u :: rest → pyStrip u ∉ st.banned) →
      (cmd_unban env st a c text).1 = st) := by
  constructor
  · by_cases hadm : a ∈ env.ADMIN_IDS
    · rcases hsplit : pySplit text with _ | ⟨t0, _ | ⟨u, rest⟩⟩
      · simp [cmd_ban, hadm, hsplit]
      · simp [cmd_ban, hadm, hsplit]
      · by_cases hb : pyStrip u ∈ st.banned
        · simp [cmd_ban, hadm, hsplit, hb]
        · simp [cmd_ban, hadm, hsplit, hb]
    · simp [cmd_ban, hadm]
  · intro h
    by_cases hadm : a ∈ env.ADMIN_IDS
    · rcases hsplit : pySplit text with _ | ⟨t0, _ | ⟨u, rest⟩⟩
      · simp [cmd_unban, hadm, hsplit]
      · simp [cmd_unban, hadm, hsplit]
      · have hnb := h t0 u rest hsplit
        simp [cmd_unban, hadm, hsplit, hnb]
    · simp [cmd_unban, hadm]

/-- Claim C6 witness: banning "9" twice from an empty store equals banning it
once, and unbanning the absent "9" is a no-op. -/
theorem ban_unban_idempotent_witness :
    (cmd_ban envAdmin1 (cmd_ban envAdmin1 stPlain 1 1 "/ban 9").1 1 1 "/ban 9").1
        = (cmd_ban envAdmin1 stPlain 1 1 "/ban 9").1 ∧
    (cmd_unban envAdmin1 stPlain 1 1 "/unban 9").1 = stPlain := by
  refine ⟨(ban_unban_idempotent envAdmin1 stPlain 1 1 "/ban 9").1,
          (ban_unban_idempotent envAdmin1 stPlain 1 1 "/unban 9").2 ?_⟩
  intro t0 u rest _
  simp [stPlain]

/-- Claim C3 counterexample: user 7 has stored locale "uz"; the `lang_fr`
callback *changes* the stored locale (to "fr"), so submitting code "fr" does
not leave it unchanged. -/
theorem lang_fr_stored_counterexample :
    (callback_lang stLangUz7 7 1 "lang_fr").1.langs ≠ stLangUz7.langs := by
  decide

/-- Claim C3 amended: language selection performs no validation — the code
following the `lang_` prefix, supported or not, is stored unconditionally as
the user's language preference, and the prompt is emitted in that code. -/
theorem callback_lang_stores_any_code (st : Store) (uid : Int) (cid : Nat) (code : String) :
    callback_lang st uid cid ("lang_" ++ code)
      = ({ st with langs := alistSet st.langs (toString uid) code },
         [Out.answer_callback_query cid "OK",
          Out.send_message uid (tr "start" code []) (some (Keyboard.format code))]) := by
  have h := dropThroughFirst_lang code
  simp only [callback_lang, h]

/-- Claim C4: a `format_mp4`/`format_mp3` callback with no non-empty pending
link answers "Avval link yuboring." ("send a link first"), invokes no
collaborator, and leaves the store unchanged. -/
theorem format_no_pending_link (env : Env) (st : Store) (uid : Int) (cid mid : Nat)
    (data : String)
    (hdata : data = "format_mp4" ∨ data = "format_mp3")
    (hlink : ((alistGet st.current_links (toString uid)).getD "") = "") :
    callback_all env st uid cid mid data
      = (st, [Out.answer_callback_query cid "Avval link yuboring."], []) := by
  rcases hdata with h | h <;> subst h <;>
    simp [callback_all, format_branch, hlink] <;>
    exact fun hbad => absurd hbad (by decide)

/-- Claim C4 witness: concrete instance on the empty store. -/
theorem format_no_pending_link_witness :
    callback_all envTriv stPlain 7 1 2 "format_mp4"
      = (stPlain, [Out.answer_callback_query 1 "Avval link yuboring."], []) :=
  format_no_pending_link envTriv stPlain 7 1 2 "format_mp4" (Or.inl rfl) (by decide)

/-- Claim C1 counterexample: user "7" is banned, yet a `/start` command from
them still produces an outbound message — the banned check exists only in the
catch-all text handler, not in `handle_start` (nor in the callback
handlers). -/
theorem banned_start_still_responds :
    (process_event envTriv stBanned7 (Event.message 7 "A" (some "/start"))).2.1 ≠ [] := by
  decide

/-- Claim C1 amended: a plain text message (reaching the catch-all text
handler) from a banned identifier produces zero outbound messages and leaves
the store unchanged; `/start`/`/help` (and callback queries) are not
short-circuited for banned users — `handle_start` always sends. -/
theorem banned_text_noop (env : Env) (st : Store) (uid : Int) (fn : String)
    (text : Option String) (h : toString uid ∈ st.banned) :
    main_text env st uid fn text = (st, []) ∧ (handle_start st uid fn).2 ≠ [] := by
  constructor
  · simp [main_text, h]
  · simp [handle_start]

/-- Claim C1 witness: banned user "7", message "hello". -/
theorem banned_text_noop_witness :
    main_text envTriv stBanned7 7 "A" (some "hello") = (stBanned7, []) ∧
    (handle_start stBanned7 7 "A").2 ≠ [] :=
  banned_text_noop envTriv stBanned7 7 "A" (some "hello") (by decide)

/-- Claim C9 counterexample: "/admin" does not begin with either URL prefix,
yet the handler's reply to it is not the invalid-link prompt (a non-admin
gets the "not admin" notice instead). -/
theorem admin_trigger_not_invalid_link_reply :
    looks_like_url "/admin" = false ∧
    (main_text envTriv stPlain 7 "A" (some "/admin")).2
      ≠ [Out.send_message 7 (tr "no_link" "uz" []) none] := by
  constructor
  · decide
  · decide

/-- Claim C9 amended: the link test is exactly the two-prefix test applied to
the stripped message text (`"https://"` alone passes), with the single
exception of the admin trigger "/admin": any other stripped text that passes
is stored as the pending link with the format prompt, and any other stripped
text that fails gets the invalid-link prompt. -/
theorem text_handler_prefix_test (env : Env) (st : Store) (uid : Int) (fn : String)
    (text0 : Option String)
    (hban : toString uid ∉ st.banned)
    (hadm : pyStrip (text0.getD "") ≠ "/admin") :
    looks_like_url (pyStrip (text0.getD ""))
        = (strStartsWith (pyStrip (text0.getD "")) "http://"
            || strStartsWith (pyStrip (text0.getD "")) "https://") ∧
    looks_like_url "https://" = true ∧
    (looks_like_url (pyStrip (text0.getD "")) = true →
      alistGet (main_text env st uid fn text0).1.current_links (toString uid)
          = some (pyStrip (text0.getD "")) ∧
      (main_text env st uid fn text0).2
        = [Out.send_message uid
             (tr "choose_format" ((alistGet st.langs (toString uid)).getD "uz") [])
             (some (Keyboard.format ((alistGet st.langs (toString uid)).getD "uz")))]) ∧
    (looks_like_url (pyStrip (text0.getD "")) = false →
      main_text env st uid fn text0
        = (st, [Out.send_message uid
                  (tr "no_link" ((alistGet st.langs (toString uid)).getD "uz") []) none])) := by
  refine ⟨rfl, by decide, ?_, ?_⟩
  · intro h
    constructor
    · simp [main_text, hban, hadm, h, alistGet_alistSet_self]
    · simp [main_text, hban, hadm, h]
  · intro h
    simp [main_text, hban, hadm, h]

/-- Claim C9 witness: non-banned user submits "https://a": accepted and
stored; the "https://" bare-scheme acceptance is part of the applied
theorem. -/
theorem text_handler_prefix_test_witness :
    looks_like_url (pyStrip ((some "https://a").getD ""))
        = (strStartsWith (pyStrip ((some "https://a").getD "")) "http://"
            || strStartsWith (pyStrip ((some "https://a").getD "")) "https://") ∧
    looks_like_url "https://" = true ∧
    (looks_like_url (pyStrip ((some "https://a").getD "")) = true →
      alistGet (main_text envTriv stPlain 7 "A" (some "https://a")).1.current_links (toString (7 : Int))
          = some (pyStrip ((some "https://a").getD "")) ∧
      (main_text envTriv stPlain 7 "A" (some "https://a")).2
        = [Out.send_message 7
             (tr "choose_format" ((alistGet stPlain.langs (toString (7 : Int))).getD "uz") [])
             (some (Keyboard.format ((alistGet stPlain.langs (toString (7 : Int))).getD "uz")))]) ∧
    (looks_like_url (pyStrip ((some "https://a").getD "")) = false →
      main_text envTriv stPlain 7 "A" (some "https://a")
        = (stPlain, [Out.send_message 7
                  (tr "no_link" ((alistGet stPlain.langs (toString (7 : Int))).getD "uz") []) none])) :=
  text_handler_prefix_test envTriv stPlain 7 "A" (some "https://a") (by decide) (by decide)

/-- Claim C7: an authorized broadcast with a non-empty body attempts a send
to every registered identifier — the attempt list does not depend on which
sends succeed, so one failure never prevents the remaining attempts — and
the final report counts exactly the successful sends. -/
theorem broadcast_attempts_all_counts_successes (env : Env) (sendOk : Int → Bool)
    (st : Store) (a c : Int) (text : String)
    (hadm : a ∈ env.ADMIN_IDS)
    (hbody : pyStrip (String.mk (dropThroughFirst ' ' text.toList)) ≠ "") :
    (cmd_broadcast env sendOk st a c text).1 = st ∧
    (cmd_broadcast env sendOk st a c text).2
      = (st.users.map Prod.fst).filterMap
            (fun u => (pyInt? u).map
              (fun n => Out.send_message n (pyStrip (String.mk (dropThroughFirst ' ' text.toList))) none))
          ++ [Out.send_message c
                ("Sent to "
                  ++ toString ((st.users.map Prod.fst).filter
                        (fun u => ((pyInt? u).map sendOk).getD false)).length
                  ++ " users.") none] := by
  have hb := broadcast_loop_spec sendOk (pyStrip (String.mk (dropThroughFirst ' ' text.toList)))
      (st.users.map Prod.fst)
  have hnn : ¬ a ∉ env.ADMIN_IDS := fun hc => hc hadm
  constructor
  · unfold cmd_broadcast
    rw [if_neg hnn]
    dsimp only
    rw [if_neg hbody]
  · unfold cmd_broadcast
    rw [if_neg hnn]
    dsimp only
    rw [if_neg hbody]
    dsimp only
    rw [hb.1, hb.2]

/-- Claim C7 witness: three registered users, the send to "2" fails; all
three are attempted and the report counts 2 successes. -/
theorem broadcast_attempts_witness :
    (cmd_broadcast envAdmin1 sendOkNot2 stUsers123 1 1 "/broadcast hi").1 = stUsers123 ∧
    (cmd_broadcast envAdmin1 sendOkNot2 stUsers123 1 1 "/broadcast hi").2
      = [Out.send_message 1 "hi" none, Out.send_message 2 "hi" none,
         Out.send_message 3 "hi" none, Out.send_message 1 "Sent to 2 users." none] := by
  have h := broadcast_attempts_all_counts_successes envAdmin1 sendOkNot2 stUsers123 1 1
      "/broadcast hi" (by decide) (by decide)
  refine ⟨h.1, ?_⟩
  rw [h.2]
  decide

/-- Claim C2 counterexample: a small file fetched in video mode is delivered
with `send_document`, not `send_video` — the source's inline video path uses
`bot.send_document` (main.py line 361). -/
theorem inline_video_sent_as_document :
    Out.send_video 7 "Title" ∉ (fetch_and_deliver envSmallFile 7 5 "uz" "https://a" "video").1 ∧
    Out.send_document 7 "Title" ∈ (fetch_and_deliver envSmallFile 7 5 "uz" "https://a" "video").1 := by
  decide

/-- Claim C2 amended: with the fetch succeeding on an existing non-empty
path, if size ≤ threshold the delivery is exactly one inline send —
`send_audio` for audio, `send_document` (a generic file, not a video send)
for video — plus removal of the prompt message, with no storage or fallback
collaborator; if size > threshold no inline file send occurs, the
object-storage collaborator is attempted exactly when configured, and the
fallback upload is attempted exactly when object storage was unconfigured or
yielded no link. -/
theorem delivery_threshold_policy (env : Env) (uid : Int) (mid : Nat)
    (lang link mode fp : String) (info : Info)
    (hfetch : env.fetch link mode = Except.ok (some fp, info))
    (hfp : fp ≠ "") (hex : env.fileExists fp = true) :
    (env.fileSize fp ≤ env.MAX_TELEGRAM_BYTES →
      fetch_and_deliver env uid mid lang link mode
        = ((if mode = "audio"
              then [Out.send_audio uid
                      (if (info.title.getD "") = "" then pyBasename fp else info.title.getD "")]
              else [Out.send_document uid
                      (if (info.title.getD "") = "" then pyBasename fp else info.title.getD "")])
            ++ [Out.delete_message uid mid], [])) ∧
    (env.MAX_TELEGRAM_BYTES < env.fileSize fp →
      (∀ t, Out.send_audio uid t ∉ (fetch_and_deliver env uid mid lang link mode).1 ∧
            Out.send_document uid t ∉ (fetch_and_deliver env uid mid lang link mode).1 ∧
            Out.send_video uid t ∉ (fetch_and_deliver env uid mid lang link mode).1) ∧
      Out.delete_message uid mid ∈ (fetch_and_deliver env uid mid lang link mode).1 ∧
      (fetch_and_deliver env uid mid lang link mode).2
        = (if env.s3_configured
             then [Collab.s3_upload fp (info.id ++ "." ++ (info.ext.getD "mp4"))] else [])
          ++ (if (((s3_stage env fp info).1.getD "") = "")
               then [Collab.transfersh fp] else [])) := by
  constructor
  · intro hsize
    simp only [fetch_and_deliver, hfetch]
    simp [hfp, hex, hsize]
  · intro hsize
    have hns : ¬ env.fileSize fp ≤ env.MAX_TELEGRAM_BYTES := by omega
    have hout : (fetch_and_deliver env uid mid lang link mode).1
        = [Out.edit_message_text "📤 Fayl juda katta — yuklash amalga oshirilmoqda..." uid mid,
           (if (((fallback_stage env fp (s3_stage env fp info)).1.getD "") = "")
              then Out.send_message uid (tr "error" lang ["Upload failed"]) none
              else Out.send_message uid
                     ("🔗 Yuklab olish havolasi:\n"
                       ++ ((fallback_stage env fp (s3_stage env fp info)).1.getD "")) none),
           Out.delete_message uid mid] := by
      simp only [fetch_and_deliver, hfetch]
      simp [hfp, hex, hns]
    have hcol : (fetch_and_deliver env uid mid lang link mode).2
        = (fallback_stage env fp (s3_stage env fp info)).2 := by
      simp only [fetch_and_deliver, hfetch]
      simp [hfp, hex, hns]
    refine ⟨?_, ?_, ?_⟩
    · intro t
      by_cases hc : (((fallback_stage env fp (s3_stage env fp info)).1.getD "") = "") <;>
        simp [hout, hc]
    · simp [hout]
    · rw [hcol, fallback_stage_collabs, s3_stage_collabs]

/-- Claim C2 witness: the small-file audio case on a concrete environment —
inline audio send plus prompt removal and no storage collaborator. -/
theorem delivery_threshold_policy_witness :
    (envSmallFile.fileSize "/tmp/dl/f.mp4" ≤ envSmallFile.MAX_TELEGRAM_BYTES →
      fetch_and_deliver envSmallFile 7 5 "uz" "https://a" "audio"
        = ((if "audio" = "audio"
              then [Out.send_audio 7
                      (if ((some "Title" : Option String).getD "") = ""
                         then pyBasename "/tmp/dl/f.mp4" else (some "Title" : Option String).getD "")]
              else [Out.send_document 7
                      (if ((some "Title" : Option String).getD "") = ""
                         then pyBasename "/tmp/dl/f.mp4" else (some "Title" : Option String).getD "")])
            ++ [Out.delete_message 7 5], [])) ∧
    (envSmallFile.MAX_TELEGRAM_BYTES < envSmallFile.fileSize "/tmp/dl/f.mp4" →
      (∀ t, Out.send_audio 7 t ∉ (fetch_and_deliver envSmallFile 7 5 "uz" "https://a" "audio").1 ∧
            Out.send_document 7 t ∉ (fetch_and_deliver envSmallFile 7 5 "uz" "https://a" "audio").1 ∧
            Out.send_video 7 t ∉ (fetch_and_deliver envSmallFile 7 5 "uz" "https://a" "audio").1) ∧
      Out.delete_message 7 5 ∈ (fetch_and_deliver envSmallFile 7 5 "uz" "https://a" "audio").1 ∧
      (fetch_and_deliver envSmallFile 7 5 "uz" "https://a" "audio").2
        = (if envSmallFile.s3_configured
             then [Collab.s3_upload "/tmp/dl/f.mp4" ("vid1" ++ "." ++ ((some "mp4" : Option String).getD "mp4"))] else [])
          ++ (if (((s3_stage envSmallFile "/tmp/dl/f.mp4" ⟨"vid1", some "mp4", some "Title"⟩).1.getD "") = "")
               then [Collab.transfersh "/tmp/dl/f.mp4"] else [])) :=
  delivery_threshold_policy envSmallFile 7 5 "uz" "https://a" "audio" "/tmp/dl/f.mp4"
    ⟨"vid1", some "mp4", some "Title"⟩ rfl (by decide) rfl

/-- Claim C5: for a valid absolute URL `u` (already stripped) submitted as a
text message by a non-banned user, `u` is stored as that user's pending link
(and the format-choice prompt is emitted, see `text_handler_prefix_test`);
a subsequent `format_mp4`/`format_mp3` callback invokes the media-fetch
collaborator first, with exactly that `u` and the matching mode, and no other
fetch invocation occurs. -/
theorem stored_link_used_by_format_choice (env : Env) (st : Store) (uid : Int)
    (fn u : String) (cid mid : Nat) (data : String)
    (hban : toString uid ∉ st.banned)
    (hstrip : pyStrip u = u)
    (hurl : looks_like_url u = true)
    (hdata : data = "format_mp4" ∨ data = "format_mp3") :
    alistGet (main_text env st uid fn (some u)).1.current_links (toString uid) = some u ∧
    (main_text env st uid fn (some u)).2
      = [Out.send_message uid
           (tr "choose_format" ((alistGet st.langs (toString uid)).getD "uz") [])
           (some (Keyboard.format ((alistGet st.langs (toString uid)).getD "uz")))] ∧
    (callback_all env (main_text env st uid fn (some u)).1 uid cid mid data).2.2.head?
      = some (Collab.fetch u (if data = "format_mp3" then "audio" else "video")) ∧
    (∀ l m, Collab.fetch l m
        ∈ (callback_all env (main_text env st uid fn (some u)).1 uid cid mid data).2.2
        → l = u ∧ m = (if data = "format_mp3" then "audio" else "video")) := by
  have hne : u ≠ "/admin" := fun he => absurd (he ▸ hurl) (by decide)
  have hne2 : u ≠ "" := fun he => absurd (he ▸ hurl) (by decide)
  have hcur : alistGet (main_text env st uid fn (some u)).1.current_links (toString uid)
      = some u := by
    simp [main_text, hban, hstrip, hne, hurl, alistGet_alistSet_self]
  have hout : (main_text env st uid fn (some u)).2
      = [Out.send_message uid
           (tr "choose_format" ((alistGet st.langs (toString uid)).getD "uz") [])
           (some (Keyboard.format ((alistGet st.langs (toString uid)).getD "uz")))] := by
    simp [main_text, hban, hstrip, hne, hurl]
  have hcb : (callback_all env (main_text env st uid fn (some u)).1 uid cid mid data).2.2
      = Collab.fetch u (if data = "format_mp3" then "audio" else "video")
          :: (fetch_and_deliver env uid mid
                ((alistGet (main_text env st uid fn (some u)).1.langs (toString uid)).getD "uz")
                u (if data = "format_mp3" then "audio" else "video")).2 := by
    have hsw1 : strStartsWith "format_mp4" "adm_" = false := by decide
    have hsw2 : strStartsWith "format_mp3" "adm_" = false := by decide
    rcases hdata with h | h <;> subst h <;>
      simp [callback_all, format_branch, hcur, hne2, hsw1, hsw2]
  refine ⟨hcur, hout, ?_, ?_⟩
  · rw [hcb]
    rfl
  · intro l m hm
    rw [hcb] at hm
    rcases List.mem_cons.mp hm with hm | hm
    · simpa using hm
    · exact absurd hm (no_fetch_in_deliver env uid mid
        ((alistGet (main_text env st uid fn (some u)).1.langs (toString uid)).getD "uz")
        u (if data = "format_mp3" then "audio" else "video") l m)

/-- Claim C5 witness: user 7 submits "https://a" then presses `format_mp4`;
the fetch is invoked with exactly "https://a" in video mode. -/
theorem stored_link_used_by_format_choice_witness :
    alistGet (main_text envSmallFile stPlain 7 "A" (some "https://a")).1.current_links
        (toString (7 : Int)) = some "https://a" ∧
    (main_text envSmallFile stPlain 7 "A" (some "https://a")).2
      = [Out.send_message 7
           (tr "choose_format" ((alistGet stPlain.langs (toString (7 : Int))).getD "uz") [])
           (some (Keyboard.format ((alistGet stPlain.langs (toString (7 : Int))).getD "uz")))] ∧
    (callback_all envSmallFile (main_text envSmallFile stPlain 7 "A" (some "https://a")).1
        7 1 2 "format_mp4").2.2.head?
      = some (Collab.fetch "https://a" (if "format_mp4" = "format_mp3" then "audio" else "video")) ∧
    (∀ l m, Collab.fetch l m
        ∈ (callback_all envSmallFile (main_text envSmallFile stPlain 7 "A" (some "https://a")).1
             7 1 2 "format_mp4").2.2
        → l = "https://a" ∧ m = (if "format_mp4" = "format_mp3" then "audio" else "video")) :=
  stored_link_used_by_format_choice envSmallFile stPlain 7 "A" "https://a" 1 2 "format_mp4"
    (by decide) (by decide) (by decide) (Or.inl rfl)
